import Mathlib

/-!
Verification development for the Secure-actix-web-server repository
(src/main.rs). The program is shallowly embedded: file-system access,
the PEM parsers from rustls_pemfile and the rustls configuration
builder are external effects, modelled as explicit parameters
(`FileSystem`, `TlsLib`); the control flow of `load_tls_config`, the
route table and the worker-count resolution in `main` are translated
directly from the source.
-/

namespace SecureServer

/-- Filesystem paths, as strings (the program handles them as strings). -/
abbrev Path := String

/-- The text of an underlying OS error (the `e` of a failed `File::open`). -/
abbrev OsError := String

/-- Raw bytes of a file, abstracted as a list of byte values. -/
abbrev FileContent := List Nat

/-- The process environment: `env::var v` succeeds iff `env v = some s`. -/
abbrev Env := String → Option String

/-- `rustls::Certificate`: one DER-encoded certificate record. -/
structure Certificate where
  der : List Nat
deriving DecidableEq, Repr

/-- `rustls::PrivateKey`: one DER-encoded PKCS8 private key record. -/
structure PrivateKey where
  der : List Nat
deriving DecidableEq, Repr

/-- The observable content of the `rustls::ServerConfig` built by
`ServerConfig::builder().with_safe_defaults().with_no_client_auth()
.with_single_cert(chain, key)`: the chain and key it was given and the
client-auth policy selected by the builder chain. -/
structure ServerConfig where
  certChain : List Certificate
  privateKey : PrivateKey
  clientAuthRequired : Bool
deriving DecidableEq, Repr

/-- The filesystem as seen through `File::open` + read: a path either yields
the file bytes or an OS error. -/
structure FileSystem where
  openFile : Path → Except OsError FileContent

/-- The external TLS library surface used by `load_tls_config`:
`rustls_pemfile::certs`, `rustls_pemfile::pkcs8_private_keys`, and the
validation performed inside `with_single_cert` (which either rejects the
chain/key pair with a diagnostic or accepts it). -/
structure TlsLib where
  parseCerts : FileContent → Except String (List (List Nat))
  parsePkcs8Keys : FileContent → Except String (List (List Nat))
  singleCertCheck : List Certificate → PrivateKey → Except String Unit

/-- The five failure shapes produced by `load_tls_config`, one per
`return Err(...)` site in the source (src/main.rs lines 40-95). -/
inductive LoadError where
  | Io (path : Path) (e : OsError)
  | InvalidCertificate
  | InvalidPrivateKey
  | NoPrivateKey
  | ConfigBuildFailed (msg : String)
deriving DecidableEq, Repr

/-- The log entries emitted by `load_tls_config` and `main`, one constructor
per `info!`/`error!` call site in the source. -/
inductive LogEntry where
  | infoLoadingCert (path : Path)
  | infoLoadingKey (path : Path)
  | errorOpenCert (path : Path) (e : OsError)
  | errorOpenKey (path : Path) (e : OsError)
  | errorParseCert (e : String)
  | errorParseKey (e : String)
  | errorNoKeys
  | errorConfigBuild (msg : String)
  | infoTlsLoaded
  | infoStartingInit
  | errorLoadFailed (e : LoadError)
  | infoServerRunning (addr : String) (workers : Nat)
deriving DecidableEq, Repr

/-- Outcome of `load_tls_config`: success, a returned error, or a panic
(the only possible panic site is `keys.remove(0)` on an empty vector). -/
inductive LoadOutcome where
  | ok (config : ServerConfig)
  | err (e : LoadError)
  | panicked
deriving DecidableEq, Repr

/-- `env::var(v).unwrap_or_else(|_| d.to_string())`. -/
def envOr (env : Env) (v d : String) : String :=
  (env v).getD d

/-- src/main.rs `load_tls_config` (lines 33-99), translated clause by clause:
resolve the two paths from `CERT_FILE`/`KEY_FILE` with defaults, open the
certificate file then the key file, parse certificates then PKCS8 keys, reject
an empty key list, then build the config from the chain and `keys.remove(0)`.
Returns the outcome together with the log entries emitted along the way. -/
def load_tls_config (lib : TlsLib) (fs : FileSystem) (env : Env) :
    LoadOutcome × List LogEntry :=
  let cert_path := envOr env "CERT_FILE" "cert.pem"
  let key_path := envOr env "KEY_FILE" "key.pem"
  let logs := [LogEntry.infoLoadingCert cert_path, LogEntry.infoLoadingKey key_path]
  match fs.openFile cert_path with
  | .error e => (.err (.Io cert_path e), logs ++ [.errorOpenCert cert_path e])
  | .ok cert_file =>
    match fs.openFile key_path with
    | .error e => (.err (.Io key_path e), logs ++ [.errorOpenKey key_path e])
    | .ok key_file =>
      match lib.parseCerts cert_file with
      | .error e => (.err .InvalidCertificate, logs ++ [.errorParseCert e])
      | .ok rawCerts =>
        let cert_chain : List Certificate := rawCerts.map Certificate.mk
        match lib.parsePkcs8Keys key_file with
        | .error e => (.err .InvalidPrivateKey, logs ++ [.errorParseKey e])
        | .ok rawKeys =>
          let keys : List PrivateKey := rawKeys.map PrivateKey.mk
          if keys.isEmpty then
            (.err .NoPrivateKey, logs ++ [.errorNoKeys])
          else
            match keys with
            | [] => (.panicked, logs)
            | k :: _ =>
              match lib.singleCertCheck cert_chain k with
              | .error e =>
                  (.err (.ConfigBuildFailed e), logs ++ [.errorConfigBuild e])
              | .ok _ =>
                  (.ok { certChain := cert_chain, privateKey := k,
                         clientAuthRequired := false },
                   logs ++ [.infoTlsLoaded])

/-- HTTP request methods. -/
inductive Method
  | GET | POST | PUT | DELETE | HEAD | OPTIONS | PATCH | CONNECT | TRACE
deriving DecidableEq, Repr

/-- An inbound HTTP request, reduced to what the route table inspects. -/
structure Request where
  method : Method
  path : String
deriving DecidableEq, Repr

/-- An HTTP response: status code and body. -/
structure Response where
  status : Nat
  body : String
deriving DecidableEq, Repr

/-- src/main.rs `hello` (line 108): `HttpResponse::Ok().body("Hello world!")`. -/
def hello : Response := { status := 200, body := "Hello world!" }

/-- src/main.rs `not_found` (line 119): `HttpResponse::NotFound().body("Not Found")`. -/
def not_found : Response := { status := 404, body := "Not Found" }

/-- One entry of the route table: an exact path pattern, an optional method
guard (`web::get()` guards GET; `web::route()` has no guard), and the
handler's fixed response. -/
structure RouteEntry where
  pattern : String
  methodGuard : Option Method
  handler : Response

/-- The route table registered in src/main.rs `main` (line 165):
`.route("/hello", web::get().to(hello))`. -/
def app_routes : List RouteEntry :=
  [{ pattern := "/hello", methodGuard := some Method.GET, handler := hello }]

/-- A route entry matches a request when the path matches exactly and the
method guard, if present, accepts the request method. -/
def routeMatches (r : RouteEntry) (req : Request) : Bool :=
  decide (req.path = r.pattern) &&
    match r.methodGuard with
    | none => true
    | some m => decide (req.method = m)

/-- actix-web dispatch over an app: the first matching registered route
handles the request; otherwise the `default_service` handler does. -/
def dispatch (routes : List RouteEntry) (deflt : Response) (req : Request) :
    Response :=
  match routes.find? (fun r => routeMatches r req) with
  | some r => r.handler
  | none => deflt

/-- The application of src/main.rs `main` (lines 163-167): the `/hello` route
plus `.default_service(web::route().to(not_found))`. -/
def app_handle (req : Request) : Response :=
  dispatch app_routes not_found req

/-- Largest value of Rust `usize` on a 64-bit host. -/
def USIZE_MAX : Nat := 2 ^ 64 - 1

/-- Decimal digit accumulation over a character list: succeeds iff every
character is a decimal digit, folding the value left to right. -/
def parseDigitsAux : List Char → Nat → Option Nat
  | [], acc => some acc
  | c :: cs, acc =>
    if c.isDigit then parseDigitsAux cs (acc * 10 + (c.toNat - 48)) else none

/-- Rust `str::parse::<usize>()`: an optional leading plus sign, then one or
more decimal digits, with the value fitting in `usize`; anything else fails. -/
def parse_usize (s : String) : Option Nat :=
  match s.data with
  | [] => none
  | c :: cs =>
    match if c = '+' then cs else c :: cs with
    | [] => none
    | d :: ds =>
      match parseDigitsAux (d :: ds) 0 with
      | none => none
      | some n => if n ≤ USIZE_MAX then some n else none

/-- src/main.rs lines 156-159: `env::var("NUM_WORKERS").ok().and_then(parse.ok())
.unwrap_or_else(num_cpus::get)`. `numCpus` stands for `num_cpus::get()`. -/
def num_workers (env : Env) (numCpus : Nat) : Nat :=
  ((env "NUM_WORKERS").bind parse_usize).getD numCpus

/-- src/main.rs line 154: `env::var("SERVER_ADDRESS").unwrap_or_else(...)`. -/
def server_address (env : Env) : String :=
  envOr env "SERVER_ADDRESS" "127.0.0.1:3000"

/-- What `main` resolves to before the listener runs: either it returns the
loader's error (the process then exits with status 1), or it panicked, or it
reaches `HttpServer::new(...).bind_rustls(address, tls_config)` with the given
address, worker count and TLS configuration. -/
inductive MainResult where
  | exitErr (e : LoadError)
  | panicked
  | serve (address : String) (workers : Nat) (tls : ServerConfig)
deriving DecidableEq, Repr

/-- src/main.rs `main` (lines 136-172) up to the point the listener is bound:
log the start, run the loader; on failure log and return the error unchanged;
on success resolve the address and worker count and reach the serving state. -/
def main_startup (lib : TlsLib) (fs : FileSystem) (env : Env) (numCpus : Nat) :
    MainResult × List LogEntry :=
  let logs := [LogEntry.infoStartingInit]
  match load_tls_config lib fs env with
  | (.err e, l) => (.exitErr e, logs ++ l ++ [.errorLoadFailed e])
  | (.panicked, l) => (.panicked, logs ++ l)
  | (.ok cfg, l) =>
    let address := server_address env
    let workers := num_workers env numCpus
    (.serve address workers cfg, logs ++ l ++ [.infoServerRunning address workers])

/-- Process exit status implied by a `MainResult`: a returned error exits with
status 1, a panic with 101, and the serving state keeps the process running. -/
def main_exit_code : MainResult → Option Nat
  | .exitErr _ => some 1
  | .panicked => some 101
  | .serve _ _ _ => none

/-- The Credential Loader with the signature the spec gives it in section 4.1:
`load(cert_path, key_path)`, the two paths being plain inputs, with no access
to environment variables. Stated only to compare `load_tls_config` against the
contract shape the spec describes. -/
def spec_load (lib : TlsLib) (fs : FileSystem) (cert_path key_path : Path) :
    LoadOutcome × List LogEntry :=
  let logs := [LogEntry.infoLoadingCert cert_path, LogEntry.infoLoadingKey key_path]
  match fs.openFile cert_path with
  | .error e => (.err (.Io cert_path e), logs ++ [.errorOpenCert cert_path e])
  | .ok cert_file =>
    match fs.openFile key_path with
    | .error e => (.err (.Io key_path e), logs ++ [.errorOpenKey key_path e])
    | .ok key_file =>
      match lib.parseCerts cert_file with
      | .error e => (.err .InvalidCertificate, logs ++ [.errorParseCert e])
      | .ok rawCerts =>
        let cert_chain : List Certificate := rawCerts.map Certificate.mk
        match lib.parsePkcs8Keys key_file with
        | .error e => (.err .InvalidPrivateKey, logs ++ [.errorParseKey e])
        | .ok rawKeys =>
          let keys : List PrivateKey := rawKeys.map PrivateKey.mk
          if keys.isEmpty then
            (.err .NoPrivateKey, logs ++ [.errorNoKeys])
          else
            match keys with
            | [] => (.panicked, logs)
            | k :: _ =>
              match lib.singleCertCheck cert_chain k with
              | .error e =>
                  (.err (.ConfigBuildFailed e), logs ++ [.errorConfigBuild e])
              | .ok _ =>
                  (.ok { certChain := cert_chain, privateKey := k,
                         clientAuthRequired := false },
                   logs ++ [.infoTlsLoaded])

/-! Concrete fixtures used by the witness and counterexample theorems. -/

/-- A TLS library whose parsers wrap the whole file as a single record and
whose builder accepts every chain/key pair. -/
def lib0 : TlsLib :=
  { parseCerts := fun c => .ok [c]
    parsePkcs8Keys := fun c => .ok [c]
    singleCertCheck := fun _ _ => .ok () }

/-- A TLS library that finds no certificate records and one key record. -/
def libEmptyChain : TlsLib :=
  { parseCerts := fun _ => .ok []
    parsePkcs8Keys := fun c => .ok [c]
    singleCertCheck := fun _ _ => .ok () }

/-- A filesystem on which every open fails, as for paths that name no file. -/
def fsMissing : FileSystem :=
  { openFile := fun _ => .error "os error 2" }

/-- A filesystem holding the two default files `cert.pem` and `key.pem`. -/
def fsBoth : FileSystem :=
  { openFile := fun p =>
      if p = "cert.pem" then .ok [1]
      else if p = "key.pem" then .ok [2]
      else .error "os error 2" }

/-- The empty environment: every variable is unset. -/
def envEmpty : Env := fun _ => none

/-- An environment that sets only `NUM_WORKERS=0`. -/
def envZeroWorkers : Env :=
  fun v => if v = "NUM_WORKERS" then some "0" else none

/-- An environment that sets only `CERT_FILE=other.pem`. -/
def envAltCert : Env :=
  fun v => if v = "CERT_FILE" then some "other.pem" else none

/-! Theorems -/

/-- Whatever the filesystem, environment and library behaviour, the loader
never reaches the panic branch of `keys.remove(0)`. -/
lemma load_tls_config_ne_panicked (lib : TlsLib) (fs : FileSystem) (env : Env) :
    (load_tls_config lib fs env).1 ≠ LoadOutcome.panicked := by
  unfold load_tls_config
  rcases h1 : fs.openFile (envOr env "CERT_FILE" "cert.pem") with e1 | cc <;>
    simp [h1]
  rcases h2 : fs.openFile (envOr env "KEY_FILE" "key.pem") with e2 | kc <;>
    simp [h2]
  rcases h3 : lib.parseCerts cc with e3 | cs <;> simp [h3]
  rcases h4 : lib.parsePkcs8Keys kc with e4 | ks <;> simp [h4]
  cases ks with
  | nil => simp
  | cons k t =>
    rcases h5 : lib.singleCertCheck (cs.map Certificate.mk) (PrivateKey.mk k) with
      e5 | u <;> simp [h5]

/-- C1: every loader failure is one of the five `LoadError` variants, and a
path that cannot be opened (certificate file, or key file once the certificate
file opened) yields the `Io` variant carrying that path and the underlying OS
error — never a parsing variant. -/
theorem C1_error_taxonomy (lib : TlsLib) (fs : FileSystem) (env : Env) :
    (∀ e, (load_tls_config lib fs env).1 = .err e →
        (∃ p oe, e = .Io p oe) ∨ e = .InvalidCertificate ∨
          e = .InvalidPrivateKey ∨ e = .NoPrivateKey ∨
          ∃ m, e = .ConfigBuildFailed m) ∧
    (∀ oe, fs.openFile (envOr env "CERT_FILE" "cert.pem") = .error oe →
        (load_tls_config lib fs env).1 =
          .err (.Io (envOr env "CERT_FILE" "cert.pem") oe)) ∧
    (∀ cc oe, fs.openFile (envOr env "CERT_FILE" "cert.pem") = .ok cc →
        fs.openFile (envOr env "KEY_FILE" "key.pem") = .error oe →
        (load_tls_config lib fs env).1 =
          .err (.Io (envOr env "KEY_FILE" "key.pem") oe)) := by
  refine ⟨?_, ?_, ?_⟩
  · intro e _
    cases e with
    | Io p oe => exact Or.inl ⟨p, oe, rfl⟩
    | InvalidCertificate => exact Or.inr (Or.inl rfl)
    | InvalidPrivateKey => exact Or.inr (Or.inr (Or.inl rfl))
    | NoPrivateKey => exact Or.inr (Or.inr (Or.inr (Or.inl rfl)))
    | ConfigBuildFailed m => exact Or.inr (Or.inr (Or.inr (Or.inr ⟨m, rfl⟩)))
  · intro oe h
    simp [load_tls_config, h]
  · intro cc oe hc hk
    simp [load_tls_config, hc, hk]

/-- C1 witness: on a filesystem where no path opens, the loader fails with
`Io` at the resolved certificate path. -/
theorem C1_error_taxonomy_witness :
    (load_tls_config lib0 fsMissing envEmpty).1 =
      .err (.Io "cert.pem" "os error 2") :=
  (C1_error_taxonomy lib0 fsMissing envEmpty).2.1 "os error 2" rfl

/-- C2: when the key file opens and parses to zero PKCS8 keys (and the
certificate file opened and parsed), the loader fails with `NoPrivateKey`,
and it does so for every configuration builder whatsoever — the builder is
never consulted. -/
theorem C2_no_private_key (pc pk : FileContent → Except String (List (List Nat)))
    (fs : FileSystem) (env : Env) (cc kc : FileContent) (cs : List (List Nat))
    (hc : fs.openFile (envOr env "CERT_FILE" "cert.pem") = .ok cc)
    (hk : fs.openFile (envOr env "KEY_FILE" "key.pem") = .ok kc)
    (hpc : pc cc = .ok cs) (hpk : pk kc = .ok []) :
    ∀ check, (load_tls_config ⟨pc, pk, check⟩ fs env).1 = .err .NoPrivateKey := by
  intro check
  simp [load_tls_config, hc, hk, hpc, hpk]

/-- C2 witness: the default files exist, the key file parses to zero keys,
and the loader fails with `NoPrivateKey`. -/
theorem C2_no_private_key_witness :
    (load_tls_config
        ⟨fun c => .ok [c], fun _ => .ok [], fun _ _ => .ok ()⟩
        fsBoth envEmpty).1 = .err .NoPrivateKey :=
  C2_no_private_key (fun c => .ok [c]) (fun _ => .ok []) fsBoth envEmpty
    [1] [2] [[1]] rfl rfl rfl rfl (fun _ _ => .ok ())

/-- C3: the application routes every request by exactly the two registered
entries: a GET to the exact path `/hello` gets status 200 with body
`Hello world!`, and every other request gets status 404 with body
`Not Found`. -/
theorem C3_two_route_surface (req : Request) :
    app_handle req =
      if req.method = Method.GET ∧ req.path = "/hello"
      then { status := 200, body := "Hello world!" }
      else { status := 404, body := "Not Found" } := by
  by_cases hm : req.method = Method.GET <;> by_cases hp : req.path = "/hello" <;>
    simp [app_handle, dispatch, app_routes, routeMatches, hello, not_found, hm, hp]

/-- C10: the first-key extraction `keys.remove(0)` is safe: every run of the
loader ends in a returned value or a returned error, never in the panic
branch. -/
theorem C10_remove_first_key_safe (lib : TlsLib) (fs : FileSystem) (env : Env) :
    (∃ cfg, (load_tls_config lib fs env).1 = .ok cfg) ∨
      ∃ e, (load_tls_config lib fs env).1 = .err e := by
  rcases h : (load_tls_config lib fs env).1 with cfg | e | _
  · exact Or.inl ⟨cfg, h ▸ rfl⟩
  · exact Or.inr ⟨e, h ▸ rfl⟩
  · exact absurd h (load_tls_config_ne_panicked lib fs env)

/-- C4: a certificate file that parses to zero records is not rejected at the
parsing stage: the empty chain reaches the configuration builder, and the load
either succeeds with an empty chain or fails with `ConfigBuildFailed` wrapping
the builder's diagnostic — never with a parsing error. -/
theorem C4_empty_chain_passthrough (lib : TlsLib) (fs : FileSystem) (env : Env)
    (cc kc : FileContent) (k : List Nat) (ks : List (List Nat))
    (hc : fs.openFile (envOr env "CERT_FILE" "cert.pem") = .ok cc)
    (hk : fs.openFile (envOr env "KEY_FILE" "key.pem") = .ok kc)
    (hpc : lib.parseCerts cc = .ok [])
    (hpk : lib.parsePkcs8Keys kc = .ok (k :: ks)) :
    (∃ m, lib.singleCertCheck [] (PrivateKey.mk k) = .error m ∧
        (load_tls_config lib fs env).1 = .err (.ConfigBuildFailed m)) ∨
      ∃ cfg, (load_tls_config lib fs env).1 = .ok cfg ∧ cfg.certChain = [] := by
  rcases h5 : lib.singleCertCheck [] (PrivateKey.mk k) with m | u
  · refine Or.inl ⟨m, rfl, ?_⟩
    simp [load_tls_config, hc, hk, hpc, hpk, h5]
  · exact Or.inr ⟨{ certChain := [], privateKey := ⟨k⟩, clientAuthRequired := false },
      by simp [load_tls_config, hc, hk, hpc, hpk, h5], rfl⟩

/-- C4 witness: with a certificate file parsing to zero records, a key file
with one key and an accepting builder, the load succeeds with an empty
chain. -/
theorem C4_empty_chain_passthrough_witness :
    (∃ m, libEmptyChain.singleCertCheck [] (PrivateKey.mk [2]) = .error m ∧
        (load_tls_config libEmptyChain fsBoth envEmpty).1 =
          .err (.ConfigBuildFailed m)) ∨
      ∃ cfg, (load_tls_config libEmptyChain fsBoth envEmpty).1 = .ok cfg ∧
        cfg.certChain = [] :=
  C4_empty_chain_passthrough libEmptyChain fsBoth envEmpty [1] [2] [2] []
    rfl rfl rfl rfl

/-- C5: when the key file parses to a non-empty key sequence, any successful
configuration holds the full parsed chain, exactly the first parsed key, and
no client-authentication requirement; and the keys after the first have no
effect at all — a parser returning the same first key with any other tail
gives the identical loader result. -/
theorem C5_first_key_only (pc pk pk2 : FileContent → Except String (List (List Nat)))
    (check : List Certificate → PrivateKey → Except String Unit)
    (fs : FileSystem) (env : Env) (cc kc : FileContent)
    (cs : List (List Nat)) (k : List Nat) (ks ks2 : List (List Nat))
    (hc : fs.openFile (envOr env "CERT_FILE" "cert.pem") = .ok cc)
    (hk : fs.openFile (envOr env "KEY_FILE" "key.pem") = .ok kc)
    (hpc : pc cc = .ok cs)
    (hpk : pk kc = .ok (k :: ks)) (hpk2 : pk2 kc = .ok (k :: ks2)) :
    (∀ cfg, (load_tls_config ⟨pc, pk, check⟩ fs env).1 = .ok cfg →
        cfg.certChain = cs.map Certificate.mk ∧ cfg.privateKey = ⟨k⟩ ∧
          cfg.clientAuthRequired = false) ∧
    load_tls_config ⟨pc, pk, check⟩ fs env =
      load_tls_config ⟨pc, pk2, check⟩ fs env := by
  rcases h5 : check (cs.map Certificate.mk) (PrivateKey.mk k) with m | u
  · constructor
    · intro cfg hcfg
      simp [load_tls_config, hc, hk, hpc, hpk, h5] at hcfg
    · simp [load_tls_config, hc, hk, hpc, hpk, hpk2, h5]
  · constructor
    · intro cfg hcfg
      simp [load_tls_config, hc, hk, hpc, hpk, h5] at hcfg
      simp [← hcfg]
    · simp [load_tls_config, hc, hk, hpc, hpk, hpk2, h5]

/-- C5 witness: a key file parsing to two keys gives a configuration holding
exactly the first, equal in every respect to the run where the parser found
only that first key. -/
theorem C5_first_key_only_witness :
    (∀ cfg, (load_tls_config
          ⟨fun c => .ok [c], fun _ => .ok [[2], [9]], fun _ _ => .ok ()⟩
          fsBoth envEmpty).1 = .ok cfg →
        cfg.certChain = [[1]].map Certificate.mk ∧ cfg.privateKey = ⟨[2]⟩ ∧
          cfg.clientAuthRequired = false) ∧
    load_tls_config ⟨fun c => .ok [c], fun _ => .ok [[2], [9]], fun _ _ => .ok ()⟩
        fsBoth envEmpty =
      load_tls_config ⟨fun c => .ok [c], fun _ => .ok [[2]], fun _ _ => .ok ()⟩
        fsBoth envEmpty :=
  C5_first_key_only (fun c => .ok [c]) (fun _ => .ok [[2], [9]])
    (fun _ => .ok [[2]]) (fun _ _ => .ok ()) fsBoth envEmpty
    [1] [2] [[1]] [2] [[9]] [] rfl rfl rfl rfl rfl

/-- C6: whenever the loader fails, startup returns that very error unchanged
(the process then exits with status 1, which is non-zero), the failure is
logged, and the serving state — the only state in which a socket is bound —
is never reached. -/
theorem C6_fail_fast (lib : TlsLib) (fs : FileSystem) (env : Env)
    (numCpus : Nat) (e : LoadError)
    (h : (load_tls_config lib fs env).1 = .err e) :
    (main_startup lib fs env numCpus).1 = .exitErr e ∧
    main_exit_code (main_startup lib fs env numCpus).1 = some 1 ∧
    (∀ n, main_exit_code (main_startup lib fs env numCpus).1 = some n → n ≠ 0) ∧
    LogEntry.errorLoadFailed e ∈ (main_startup lib fs env numCpus).2 ∧
    ∀ a w c, (main_startup lib fs env numCpus).1 ≠ .serve a w c := by
  rcases hres : load_tls_config lib fs env with ⟨r, l⟩
  rw [hres] at h
  simp only at h
  subst h
  refine ⟨?_, ?_, ?_, ?_, ?_⟩ <;>
    simp [main_startup, hres, main_exit_code]

/-- C6 witness: with both files missing, startup exits with the loader's `Io`
error on the certificate path, with exit status 1. -/
theorem C6_fail_fast_witness :
    (main_startup lib0 fsMissing envEmpty 4).1 =
        .exitErr (.Io "cert.pem" "os error 2") ∧
    main_exit_code (main_startup lib0 fsMissing envEmpty 4).1 = some 1 ∧
    (∀ n, main_exit_code (main_startup lib0 fsMissing envEmpty 4).1 = some n →
        n ≠ 0) ∧
    LogEntry.errorLoadFailed (.Io "cert.pem" "os error 2") ∈
        (main_startup lib0 fsMissing envEmpty 4).2 ∧
    ∀ a w c, (main_startup lib0 fsMissing envEmpty 4).1 ≠ .serve a w c :=
  C6_fail_fast lib0 fsMissing envEmpty 4 (.Io "cert.pem" "os error 2") rfl

/-- C7 counterexample: `NUM_WORKERS=0` parses as a usize, so the resolved
worker count is 0 — not a positive integer, refuting the claim that the
resolved count is always positive. -/
theorem C7_counterexample :
    parse_usize "0" = some 0 ∧ num_workers envZeroWorkers 4 = 0 ∧
      ¬ 0 < num_workers envZeroWorkers 4 := by
  refine ⟨by decide, by decide, by decide⟩

/-- C7 (amended): when `NUM_WORKERS` is unset or unparsable the resolved
worker count equals the processor count (positive since that count is at
least 1); when it parses, the parsed value is used verbatim — so the count is
positive except when a parsable non-positive value such as `0` is supplied. -/
theorem C7_worker_count_amended (env : Env) (numCpus : Nat) (hcpu : 1 ≤ numCpus) :
    ((env "NUM_WORKERS").bind parse_usize = none →
        num_workers env numCpus = numCpus ∧ 0 < num_workers env numCpus) ∧
    ∀ n, (env "NUM_WORKERS").bind parse_usize = some n →
        num_workers env numCpus = n := by
  constructor
  · intro h
    refine ⟨by simp [num_workers, h], ?_⟩
    simp only [num_workers, h, Option.getD_none]
    omega
  · intro n h
    simp [num_workers, h]

/-- C7 amended witness: with `NUM_WORKERS` unset and 4 processors, the
resolved worker count is 4. -/
theorem C7_worker_count_amended_witness :
    num_workers envEmpty 4 = 4 ∧ 0 < num_workers envEmpty 4 :=
  (C7_worker_count_amended envEmpty 4 (by decide)).1 rfl

/-- C8 counterexample: over one unchanged filesystem, changing only the
`CERT_FILE` environment variable changes the loader's result — so the loader
resolves environment variables itself, refuting the claim that the caller
resolves the paths and that the loader performs no environment-variable
resolution. -/
theorem C8_counterexample :
    (load_tls_config lib0 fsMissing envEmpty).1 =
        .err (.Io "cert.pem" "os error 2") ∧
    (load_tls_config lib0 fsMissing envAltCert).1 =
        .err (.Io "other.pem" "os error 2") ∧
    load_tls_config lib0 fsMissing envEmpty ≠
      load_tls_config lib0 fsMissing envAltCert := by
  refine ⟨rfl, by decide, by decide⟩

/-- C8 (amended): the loader itself resolves the certificate and key paths
from `CERT_FILE` and `KEY_FILE`, defaulting to `cert.pem` and `key.pem` when
absent, and then behaves exactly as the spec-shaped loader invoked on those
two resolved paths. -/
theorem C8_loader_inputs_amended (lib : TlsLib) (fs : FileSystem) (env : Env) :
    load_tls_config lib fs env =
      spec_load lib fs (envOr env "CERT_FILE" "cert.pem")
        (envOr env "KEY_FILE" "key.pem") := rfl

/-- C9: the loader is deterministic in its inputs: two successful invocations
over the same filesystem, environment and library yield the same
configuration — same chain (hence same chain length), same key, same
client-auth policy. -/
theorem C9_idempotent (lib : TlsLib) (fs : FileSystem) (env : Env)
    (c1 c2 : ServerConfig)
    (h1 : (load_tls_config lib fs env).1 = .ok c1)
    (h2 : (load_tls_config lib fs env).1 = .ok c2) :
    c1 = c2 ∧ c1.certChain.length = c2.certChain.length ∧
      c1.privateKey = c2.privateKey ∧
      c1.clientAuthRequired = c2.clientAuthRequired := by
  rw [h1] at h2
  cases h2
  exact ⟨rfl, rfl, rfl, rfl⟩

/-- C9 witness: a successful load over the default files, compared with
itself. -/
theorem C9_idempotent_witness :
    ({ certChain := [⟨[1]⟩], privateKey := ⟨[2]⟩, clientAuthRequired := false }
        : ServerConfig) =
      { certChain := [⟨[1]⟩], privateKey := ⟨[2]⟩, clientAuthRequired := false } ∧
    ([⟨[1]⟩] : List Certificate).length = ([⟨[1]⟩] : List Certificate).length ∧
    (⟨[2]⟩ : PrivateKey) = ⟨[2]⟩ ∧ false = false :=
  C9_idempotent lib0 fsBoth envEmpty
    { certChain := [⟨[1]⟩], privateKey := ⟨[2]⟩, clientAuthRequired := false }
    { certChain := [⟨[1]⟩], privateKey := ⟨[2]⟩, clientAuthRequired := false }
    rfl rfl

end SecureServer
